import Mathlib

/-!
Verification development for the injury-info data integration layer.

The definitions below are shallow embeddings of the JavaScript source:
the DataIntegrationService (cache, merge, dedup, fallback and facade
operations) and the GoogleSheetsConnector (sheet reading and search).
JavaScript strings are modelled as Lean strings restricted to the ASCII
fragment actually used by the data; JavaScript objects whose field sets
are fixed are modelled as structures, and the one place where a dynamic
field lookup matters (destructuring a missing field) uses an explicit
association list of JavaScript values.  Caught exceptions are modelled
with Except; functions that the source makes total by try/catch are
total here.  The impure date fields (new Date().toISOString()) are not
observable by any property below and are omitted from the record
structures.
-/

/-- Embeds the ASCII case of JavaScript toLowerCase, the only case the
data exercises: characters A through Z are shifted to lowercase and
every other character is unchanged. -/
def jsToLower (c : Char) : Char :=
  if 65 ≤ c.toNat && c.toNat ≤ 90 then Char.ofNat (c.toNat + 32) else c

/-- Embeds s.toLowerCase() on a whole string. -/
def strLower (s : String) : String := ⟨s.toList.map jsToLower⟩

/-- Characters kept by the slug regex: the class [a-z0-9]. -/
def isSlugChar (c : Char) : Bool :=
  (97 ≤ c.toNat && c.toNat ≤ 122) || (48 ≤ c.toNat && c.toNat ≤ 57)

/-- Embeds replace(/[^a-z0-9]+/g, "-"): every maximal run of characters
outside [a-z0-9] becomes a single hyphen.  The boolean records whether
the previous character was part of such a run. -/
def collapseAux : Bool → List Char → List Char
  | _, [] => []
  | inRun, c :: rest =>
    if isSlugChar c then c :: collapseAux false rest
    else if inRun then collapseAux true rest
    else '-' :: collapseAux true rest

/-- Embeds one alternative of replace(/(^-|-$)/g, ""): drops a single
leading hyphen when present. -/
def stripLead (l : List Char) : List Char :=
  match l with
  | [] => []
  | c :: t => if c = '-' then t else c :: t

/-- Embeds DataIntegrationService.createSlug: lowercase, then the run
collapsing regex, then removal of one leading and one trailing hyphen
(the global anchored regex matches at most once at each end). -/
def createSlug (s : String) : String :=
  ⟨(stripLead ((stripLead (collapseAux false (s.toList.map jsToLower))).reverse)).reverse⟩

/-- Modelled from the spec words for comparison with createSlug: the
slug lowercases the title, collapses every maximal run of
non-alphanumeric characters to a single hyphen, and strips all leading
and trailing hyphens. -/
def createSlugSpec (s : String) : String :=
  ⟨((((collapseAux false (s.toList.map jsToLower)).dropWhile (· == '-')).reverse).dropWhile (· == '-')).reverse⟩

/-- Relation used to state that a character list has no two adjacent
hyphens. -/
def HyphenApart (a b : Char) : Prop := a = '-' → b ≠ '-'

/-- Embeds the JavaScript substring test hay.includes(needle). -/
def jsIncludes (hay needle : String) : Bool := decide (needle.toList <:+: hay.toList)

/-- Embeds the JavaScript idiom a || b on strings, where the empty
string is the only falsy string. -/
def jsOr (a b : String) : String := if a = "" then b else a

/-- Embeds JavaScript template interpolation of a possibly null string
argument: null prints as the four characters null. -/
def jsTemplateOpt : Option String → String
  | none => "null"
  | some s => s

/-- Embeds JavaScript truthiness of a possibly null string: null and
the empty string are falsy. -/
def jsTruthyStr : Option String → Bool
  | none => false
  | some s => !(s == "")

/-- Embeds s.substring(0, n) on ASCII strings. -/
def strTake (s : String) (n : Nat) : String := ⟨s.toList.take n⟩

/-- Embeds DataIntegrationService.parseList: split on commas,
semicolons and pipes, trim each part, drop empty parts.  A falsy
(empty) input yields the empty list. -/
def parseList (text : String) : List String :=
  if text = "" then []
  else ((text.split (fun c => c == ',' || c == ';' || c == '|')).map String.trim).filter
    (fun item => !(item == ""))

/-- Record ids in the source are either template strings or the raw
JavaScript numbers used by the fallback articles. -/
inductive JsId where
  | str (s : String)
  | num (n : Nat)
deriving DecidableEq, Repr

/-- Embeds the content sub-object of an article record. -/
structure ArticleContent where
  overview : String
  symptoms : List String
  causes : List String
  treatments : List String
  legalOptions : List String
  settlements : String
deriving DecidableEq, Repr

/-- Embeds an article record.  The impure date field of the source is
omitted; no property below observes it. -/
structure Article where
  id : JsId
  title : String
  description : String
  slug : String
  category : String
  content : ArticleContent
  source : String
deriving DecidableEq, Repr

/-- Embeds a law firm record. -/
structure LawFirm where
  id : JsId
  name : String
  location : String
  phone : String
  website : String
  specialties : List String
  experience : String
  successRate : String
  notableSettlements : List String
  source : String
deriving DecidableEq, Repr

/-- Embeds a settlement record.  The source never attaches an id to
these records; absent string fields are the empty string. -/
structure SettlementRecord where
  condition : String
  state : String
  settlementRange : String
  averageSettlement : String
  totalCases : String
  year : String
  source : String
deriving DecidableEq, Repr

/-- First record of DataIntegrationService.getFallbackArticles.  Note
the id is the JavaScript number 1, not a tagged string. -/
def fallbackArticle1 : Article :=
  { id := JsId.num 1
    title := "Mesothelioma and Asbestos Exposure"
    description := "Comprehensive guide to mesothelioma, its causes, symptoms, and legal options for victims of asbestos exposure."
    slug := "mesothelioma-asbestos-exposure"
    category := "medical"
    content :=
      { overview := "Mesothelioma is a rare and aggressive cancer that develops in the lining of the lungs, abdomen, or heart. It is primarily caused by exposure to asbestos, a naturally occurring mineral that was widely used in construction, manufacturing, and other industries until the late 1970s."
        symptoms := ["Chest pain and shortness of breath", "Persistent cough and fatigue", "Weight loss and loss of appetite", "Fluid buildup around the lungs", "Abdominal pain and swelling (for peritoneal mesothelioma)"]
        causes := ["Asbestos exposure in the workplace", "Secondary exposure through family members", "Environmental exposure near asbestos mines or factories", "Exposure during home renovations or demolition"]
        treatments := ["Surgery to remove tumors", "Chemotherapy and radiation therapy", "Immunotherapy and targeted therapy", "Palliative care for symptom management"]
        legalOptions := ["Personal injury lawsuits against asbestos manufacturers", "Workers\x27 compensation claims", "Asbestos trust fund claims", "Wrongful death lawsuits for family members"]
        settlements := "Mesothelioma settlements typically range from $1.2 million to $2.4 million, with some cases reaching $10 million or more. Factors affecting settlement amounts include the severity of the disease, age of the victim, exposure history, and jurisdiction." }
    source := "fallback" }

/-- Second fallback article (id is the JavaScript number 2). -/
def fallbackArticle2 : Article :=
  { id := JsId.num 2
    title := "Roundup Weedkiller Cancer Lawsuits"
    description := "Information about Roundup lawsuits alleging the weedkiller causes non-Hodgkin lymphoma and other cancers."
    slug := "roundup-weedkiller-cancer-lawsuits"
    category := "legal"
    content :=
      { overview := "Roundup is a popular weedkiller manufactured by Monsanto (now owned by Bayer). The active ingredient, glyphosate, has been linked to non-Hodgkin lymphoma and other cancers in numerous studies and lawsuits."
        symptoms := ["Swollen lymph nodes in neck, armpits, or groin", "Unexplained weight loss and fatigue", "Night sweats and fever", "Chest pain and shortness of breath", "Abdominal pain and swelling"]
        causes := ["Direct exposure to Roundup during application", "Exposure to glyphosate in food and water", "Occupational exposure in agriculture and landscaping", "Residential use in gardens and lawns"]
        treatments := ["Chemotherapy and radiation therapy", "Immunotherapy and targeted therapy", "Stem cell transplantation", "Clinical trials for new treatments"]
        legalOptions := ["Product liability lawsuits against Bayer/Monsanto", "Class action lawsuits", "Wrongful death claims", "Settlement fund claims"]
        settlements := "Bayer has agreed to pay $10.9 billion to settle approximately 100,000 Roundup lawsuits. Individual settlements typically range from $5,000 to $250,000, depending on the severity of the cancer and exposure history." }
    source := "fallback" }

/-- Third fallback article (id is the JavaScript number 3). -/
def fallbackArticle3 : Article :=
  { id := JsId.num 3
    title := "3M Combat Arms Earplug Litigation"
    description := "Details about the 3M earplug lawsuits alleging defective military earplugs caused hearing loss and tinnitus."
    slug := "3m-combat-arms-earplug-litigation"
    category := "legal"
    content :=
      { overview := "3M Combat Arms earplugs were issued to military personnel between 2003 and 2015. Veterans allege the earplugs were defective and failed to protect their hearing, leading to hearing loss and tinnitus."
        symptoms := ["Hearing loss in one or both ears", "Ringing or buzzing in the ears (tinnitus)", "Difficulty understanding speech", "Sensitivity to loud noises", "Balance problems and dizziness"]
        causes := ["Defective design of the earplugs", "Failure to properly seal the ear canal", "Inadequate noise reduction", "Manufacturing defects"]
        treatments := ["Hearing aids and cochlear implants", "Tinnitus management therapy", "Cognitive behavioral therapy", "Sound therapy and masking devices"]
        legalOptions := ["Product liability lawsuits against 3M", "Veterans\x27 disability benefits", "Class action lawsuits", "Settlement fund claims"]
        settlements := "3M has agreed to pay $6 billion to settle approximately 260,000 earplug lawsuits. Individual settlements average around $24,000, with some cases reaching $100,000 or more depending on the severity of hearing damage." }
    source := "fallback" }

/-- Fourth fallback article (id is the JavaScript number 4). -/
def fallbackArticle4 : Article :=
  { id := JsId.num 4
    title := "Silicosis and Silica Dust Exposure"
    description := "Information about silicosis, a lung disease caused by exposure to silica dust in construction and manufacturing."
    slug := "silicosis-silica-dust-exposure"
    category := "medical"
    content :=
      { overview := "Silicosis is a progressive lung disease caused by inhaling crystalline silica dust. It commonly affects workers in construction, mining, manufacturing, and other industries where silica dust is present."
        symptoms := ["Shortness of breath and chest pain", "Persistent cough and fatigue", "Weight loss and loss of appetite", "Fever and night sweats", "Cyanosis (bluish skin color)"]
        causes := ["Exposure to silica dust in construction", "Mining and quarrying operations", "Manufacturing of glass, ceramics, and stone products", "Sandblasting and abrasive blasting", "Tunnel construction and drilling"]
        treatments := ["Oxygen therapy and pulmonary rehabilitation", "Medications to reduce inflammation", "Lung transplantation in severe cases", "Prevention of further exposure"]
        legalOptions := ["Workers\x27 compensation claims", "Personal injury lawsuits against employers", "Product liability claims against equipment manufacturers", "Class action lawsuits"]
        settlements := "Silicosis settlements vary widely based on the severity of the disease and jurisdiction. Typical settlements range from $50,000 to $500,000, with some cases reaching $1 million or more for severe cases." }
    source := "fallback" }

/-- Fifth fallback article (id is the JavaScript number 5). -/
def fallbackArticle5 : Article :=
  { id := JsId.num 5
    title := "Talcum Powder Ovarian Cancer Lawsuits"
    description := "Information about talcum powder lawsuits alleging the product causes ovarian cancer in women."
    slug := "talcum-powder-ovarian-cancer-lawsuits"
    category := "legal"
    content :=
      { overview := "Talcum powder lawsuits allege that Johnson & Johnson\x27s talc-based products, including Baby Powder and Shower to Shower, contain asbestos and cause ovarian cancer in women who used them for feminine hygiene."
        symptoms := ["Abdominal bloating and pain", "Pelvic pain and pressure", "Changes in bowel habits", "Frequent urination", "Unexplained weight loss"]
        causes := ["Long-term use of talcum powder for feminine hygiene", "Asbestos contamination in talc products", "Inhalation of talc particles", "Application to genital area"]
        treatments := ["Surgery to remove ovaries and fallopian tubes", "Chemotherapy and radiation therapy", "Targeted therapy and immunotherapy", "Hormone therapy"]
        legalOptions := ["Product liability lawsuits against Johnson & Johnson", "Wrongful death claims", "Class action lawsuits", "Settlement fund claims"]
        settlements := "Johnson & Johnson has faced thousands of talcum powder lawsuits. Individual settlements have ranged from $100,000 to $100 million, with some jury verdicts exceeding $4 billion. The company has set aside billions for settlements." }
    source := "fallback" }

/-- Sixth fallback article (id is the JavaScript number 6). -/
def fallbackArticle6 : Article :=
  { id := JsId.num 6
    title := "Paraquat Parkinson\x27s Disease Lawsuits"
    description := "Information about Paraquat lawsuits alleging the herbicide causes Parkinson\x27s disease in agricultural workers."
    slug := "paraquat-parkinsons-disease-lawsuits"
    category := "legal"
    content :=
      { overview := "Paraquat is a highly toxic herbicide used in agriculture. Studies have linked Paraquat exposure to an increased risk of Parkinson\x27s disease, leading to thousands of lawsuits against manufacturers."
        symptoms := ["Tremors in hands, arms, legs, or jaw", "Slowed movement and stiffness", "Balance problems and falls", "Speech and swallowing difficulties", "Cognitive changes and depression"]
        causes := ["Direct exposure during application", "Inhalation of Paraquat spray", "Skin contact with contaminated surfaces", "Accidental ingestion or exposure"]
        treatments := ["Medications to manage symptoms", "Deep brain stimulation", "Physical and occupational therapy", "Speech therapy and dietary changes"]
        legalOptions := ["Product liability lawsuits against manufacturers", "Workers\x27 compensation claims", "Class action lawsuits", "Wrongful death claims"]
        settlements := "Paraquat lawsuits are still in early stages, but settlements are expected to range from $100,000 to $1 million or more, depending on the severity of Parkinson\x27s symptoms and exposure history." }
    source := "fallback" }

/-- Embeds DataIntegrationService.getFallbackArticles. -/
def getFallbackArticles : List Article :=
  [fallbackArticle1, fallbackArticle2, fallbackArticle3,
   fallbackArticle4, fallbackArticle5, fallbackArticle6]

/-- First record of DataIntegrationService.getFallbackLawFirms. -/
def fallbackFirm1 : LawFirm :=
  { id := JsId.str "fallback_firm_1"
    name := "Saddle Rock Legal Group"
    location := "Nationwide"
    phone := "(800) 123-4567"
    website := "https://legalinjuryadvocates.com"
    specialties := ["Mesothelioma", "Asbestos", "Product Liability"]
    experience := "20+ years"
    successRate := "95%"
    notableSettlements := ["$2.4M mesothelioma settlement", "$1.8M asbestos case"]
    source := "fallback" }

/-- Second fallback law firm. -/
def fallbackFirm2 : LawFirm :=
  { id := JsId.str "fallback_firm_2"
    name := "National Injury Law Center"
    location := "California, Texas, Florida"
    phone := "(800) 987-6543"
    website := "https://nationalinjury.com"
    specialties := ["Roundup", "Talcum Powder", "Medical Devices"]
    experience := "15+ years"
    successRate := "90%"
    notableSettlements := ["$250K Roundup settlement", "$500K talc case"]
    source := "fallback" }

/-- Third fallback law firm. -/
def fallbackFirm3 : LawFirm :=
  { id := JsId.str "fallback_firm_3"
    name := "Veterans Legal Services"
    location := "Nationwide"
    phone := "(800) 555-0123"
    website := "https://veteranslegal.org"
    specialties := ["3M Earplugs", "Military Injuries", "VA Benefits"]
    experience := "25+ years"
    successRate := "88%"
    notableSettlements := ["$100K earplug case", "$75K tinnitus claim"]
    source := "fallback" }

/-- Embeds DataIntegrationService.getFallbackLawFirms. -/
def getFallbackLawFirms : List LawFirm := [fallbackFirm1, fallbackFirm2, fallbackFirm3]

/-- Embeds DataIntegrationService.getDefaultSettlementData: a lookup on
the lowercased condition among four built-in records, with a generic
record for every other condition.  The source records carry no state
field; the absent field is the empty string here. -/
def getDefaultSettlementData (condition : String) : List SettlementRecord :=
  let key := strLower condition
  if key = "mesothelioma" then
    [{ condition := "Mesothelioma", state := "", settlementRange := "$1.2 million to $2.4 million",
       averageSettlement := "$1.8 million", totalCases := "Thousands", year := "2024", source := "fallback" }]
  else if key = "lung cancer" then
    [{ condition := "Lung Cancer", state := "", settlementRange := "$500,000 to $1.5 million",
       averageSettlement := "$1 million", totalCases := "Hundreds", year := "2024", source := "fallback" }]
  else if key = "ovarian cancer" then
    [{ condition := "Ovarian Cancer", state := "", settlementRange := "$100,000 to $500,000",
       averageSettlement := "$300,000", totalCases := "Thousands", year := "2024", source := "fallback" }]
  else if key = "non-hodgkin lymphoma" then
    [{ condition := "Non-Hodgkin Lymphoma", state := "", settlementRange := "$50,000 to $250,000",
       averageSettlement := "$150,000", totalCases := "Hundreds", year := "2024", source := "fallback" }]
  else
    [{ condition := condition, state := "", settlementRange := "Varies by case",
       averageSettlement := "Contact attorney for estimate", totalCases := "Varies", year := "2024", source := "fallback" }]

/-- Dedup key of mergeArticles: article.title.toLowerCase(). -/
def titleKey (a : Article) : String := strLower a.title

/-- Embeds the Set-based dedup loop of mergeArticles: keep an article
only when its lowercased title has not been seen yet. -/
def dedupArticlesAux (seen : List String) : List Article → List Article
  | [] => []
  | a :: rest =>
    if titleKey a ∈ seen then dedupArticlesAux seen rest
    else a :: dedupArticlesAux (titleKey a :: seen) rest

/-- Embeds DataIntegrationService.mergeArticles: concatenate the
spreadsheet articles before the CRM articles (the spread order of the
source), then drop later duplicates by lowercased title. -/
def mergeArticles (sheetsArticles hubspotArticles : List Article) : List Article :=
  dedupArticlesAux [] (sheetsArticles ++ hubspotArticles)

/-- Grouping key of mergeSettlementData: condition and state joined by
an underscore, with the falsy state replaced by the word all. -/
def settlementKey (r : SettlementRecord) : String :=
  r.condition ++ "_" ++ (if r.state = "" then "all" else r.state)

/-- Embeds pushing one record into the grouped object: JavaScript
object keys keep their first insertion position. -/
def groupInsert (groups : List (String × List SettlementRecord)) (key : String)
    (r : SettlementRecord) : List (String × List SettlementRecord) :=
  if groups.any (fun g => g.1 == key) then
    groups.map (fun g => if g.1 == key then (g.1, g.2 ++ [r]) else g)
  else groups ++ [(key, [r])]

/-- Embeds the reduce step of mergeSettlementData on one group: a later
record replaces the accumulator only when the later record has a truthy
settlementRange and the accumulator does not.  JavaScript reduce
without an initial value starts from the first element, so the empty
group (which never occurs) yields none. -/
def reduceBest : List SettlementRecord → Option SettlementRecord
  | [] => none
  | x :: xs =>
    some (xs.foldl (fun best current =>
      if current.settlementRange != "" && best.settlementRange == "" then current else best) x)

/-- Embeds DataIntegrationService.mergeSettlementData. -/
def mergeSettlementData (sheetsData hubspotData : List SettlementRecord) : List SettlementRecord :=
  let merged := sheetsData ++ hubspotData
  let grouped := merged.foldl (fun g r => groupInsert g (settlementKey r) r) []
  grouped.filterMap (fun g => reduceBest g.2)

/-- Embeds the body of getAllArticles after both provider fetches
resolved (the cache-miss path): merge, and fall back to the built-in
articles when the merge is empty. -/
def getAllArticlesCore (sheetsArticles hubspotArticles : List Article) : List Article :=
  let allArticles := mergeArticles sheetsArticles hubspotArticles
  if allArticles = [] then getFallbackArticles else allArticles

/-- Embeds the specialty filter applied to the fallback law firms:
keep the firms one of whose specialties contains the requested
specialty case-insensitively. -/
def filterFallbackFirms (specialty : String) : List LawFirm :=
  getFallbackLawFirms.filter (fun firm =>
    firm.specialties.any (fun s => jsIncludes (strLower s) (strLower specialty)))

/-- Embeds the body of getLawFirms after both provider fetches resolved
(the cache-miss path): concatenate, and when the result is empty use
the fallback firms, filtered by the specialty when that argument is
truthy. -/
def getLawFirmsCore (sheetsFirms hubspotFirms : List LawFirm)
    (specialty _location : Option String) : List LawFirm :=
  let allFirms := sheetsFirms ++ hubspotFirms
  if allFirms = [] then
    match specialty with
    | some s => if s = "" then getFallbackLawFirms else filterFallbackFirms s
    | none => getFallbackLawFirms
  else allFirms

/-- Embeds the body of getSettlementData after both provider fetches
resolved (the cache-miss path). -/
def getSettlementDataCore (sheetsData hubspotData : List SettlementRecord)
    (condition : String) (_state : Option String) : List SettlementRecord :=
  let mergedData := mergeSettlementData sheetsData hubspotData
  if mergedData = [] then getDefaultSettlementData condition else mergedData

/-- Embeds the filter of searchArticles: an article matches a condition
when its title, description or content overview contains the condition
case-insensitively. -/
def articleMatchesCondition (condition : String) (a : Article) : Bool :=
  jsIncludes (strLower a.title) (strLower condition) ||
  jsIncludes (strLower a.description) (strLower condition) ||
  jsIncludes (strLower a.content.overview) (strLower condition)

/-- Embeds searchArticles over resolved provider article lists. -/
def searchArticlesCore (sheetsArticles hubspotArticles : List Article)
    (condition : String) : List Article :=
  (getAllArticlesCore sheetsArticles hubspotArticles).filter (articleMatchesCondition condition)

/-- Embeds the composite object returned by searchCondition. -/
structure ConditionSearchResult where
  condition : String
  articles : List Article
  lawFirms : List LawFirm
  settlements : List SettlementRecord
  summary : String
deriving DecidableEq, Repr

/-- Embeds DataIntegrationService.generateSummary. -/
def generateSummary (condition : String) (articles : List Article)
    (settlements : List SettlementRecord) : String :=
  let base := "Information about " ++ condition
  let withArticle :=
    match articles.head? with
    | some a => base ++ ". " ++ strTake a.content.overview 200 ++ "..."
    | none => base
  match settlements.head? with
  | some s => withArticle ++ " Typical settlements range from " ++ s.settlementRange ++ "."
  | none => withArticle

/-- Embeds the body of searchCondition over resolved provider results:
it queries articles filtered by the condition, law firms with the
condition as specialty, and settlement data for the condition, then
composes the summary. -/
def searchConditionCore (sheetsArticles hubspotArticles : List Article)
    (sheetsFirms hubspotFirms : List LawFirm)
    (sheetsSetl hubspotSetl : List SettlementRecord) (condition : String) : ConditionSearchResult :=
  let articles := searchArticlesCore sheetsArticles hubspotArticles condition
  let lawFirms := getLawFirmsCore sheetsFirms hubspotFirms (some condition) none
  let settlements := getSettlementDataCore sheetsSetl hubspotSetl condition none
  { condition := condition, articles := articles, lawFirms := lawFirms,
    settlements := settlements, summary := generateSummary condition articles settlements }

/-- A sheet row as built by readSheet: an object in header insertion
order mapping header names to cell strings. -/
abbrev Row : Type := List (String × String)

/-- Field access row[k] with the JavaScript undefined-to-falsy
coercion: an absent field reads as the empty string. -/
def rowField (row : Row) (k : String) : String :=
  ((row.find? (fun p => p.1 == k)).map (fun p => p.2)).getD ""

/-- Embeds obj[header] = value on a JavaScript object: an existing key
keeps its position and is overwritten, a new key is appended. -/
def setField (o : Row) (k v : String) : Row :=
  if o.any (fun p => p.1 == k) then o.map (fun p => if p.1 == k then (k, v) else p)
  else o ++ [(k, v)]

/-- Embeds the row-object construction of readSheet: each header is
bound to the cell at its index, with missing cells read as the empty
string (row[index] || two quotes). -/
def rowToObj (headers : List String) (cells : List String) : Row :=
  headers.enum.foldl (fun o p => setField o p.2 (cells.getD p.1 "")) ([] : Row)

/-- Embeds the table shape returned by GoogleSheetsConnector.readSheet:
the first row of values is the header row and every later row becomes
an object. -/
structure SheetTable where
  headers : List String
  data : List Row

/-- Embeds the values-to-table step of readSheet. -/
def readSheetTable (values : List (List String)) : SheetTable :=
  match values with
  | [] => { headers := [], data := [] }
  | headers :: rows => { headers := headers, data := rows.map (rowToObj headers) }

/-- Embeds the object returned by GoogleSheetsConnector.searchSheet.
The early return for an empty sheet carries only results and total, so
query and column are optional here. -/
structure SearchResult where
  results : List Row
  total : Nat
  query? : Option String
  column? : Option String

/-- Embeds one row test of the named-column search: the cell under the
resolved header (or the empty string) contains the query
case-insensitively. -/
def rowMatchesColumn (headers : List String) (i : Nat) (searchQuery : String) (row : Row) : Bool :=
  jsIncludes (strLower (rowField row (headers.getD i ""))) searchQuery

/-- Embeds one row test of the all-columns search: some field value
contains the query case-insensitively. -/
def rowMatchesAny (searchQuery : String) (row : Row) : Bool :=
  row.any (fun p => jsIncludes (strLower p.2) searchQuery)

/-- Embeds GoogleSheetsConnector.searchSheet after the sheet has been
read: empty sheets return an empty result, a named column is resolved
case-insensitively against the headers and an unresolved column throws,
matches are counted before the limit is applied. -/
def searchSheet (sheetName : String) (t : SheetTable) (query : String)
    (column : Option String) (limit : Nat) : Except String SearchResult :=
  if t.data = [] then Except.ok { results := [], total := 0, query? := none, column? := none }
  else
    let searchQuery := strLower query
    match column with
    | some col =>
      match t.headers.findIdx? (fun h => strLower h == strLower col) with
      | none => Except.error ("Column " ++ col ++ " not found in sheet " ++ sheetName)
      | some i =>
        let filteredData := t.data.filter (rowMatchesColumn t.headers i searchQuery)
        Except.ok { results := filteredData.take limit, total := filteredData.length,
                    query? := some query, column? := some col }
    | none =>
      let filteredData := t.data.filter (rowMatchesAny searchQuery)
      Except.ok { results := filteredData.take limit, total := filteredData.length,
                  query? := some query, column? := some "all" }

/-- JavaScript values as needed to model destructuring a field that may
be absent from an object. -/
inductive JsValue where
  | undef
  | num (n : Nat)
  | str (s : String)
  | rows (rs : List Row)

/-- The object literal returned by searchSheet, viewed as a field list:
results, total, and (outside the empty-sheet early return) query and
column.  No field named data exists. -/
def SearchResult.toObj (r : SearchResult) : List (String × JsValue) :=
  [("results", JsValue.rows r.results), ("total", JsValue.num r.total)]
    ++ (match r.query? with | some q => [("query", JsValue.str q)] | none => [])
    ++ (match r.column? with | some c => [("column", JsValue.str c)] | none => [])

/-- Field lookup on a JavaScript object: absent keys read as undefined. -/
def jsGet (o : List (String × JsValue)) (k : String) : JsValue :=
  ((o.find? (fun p => p.1 == k)).map (fun p => p.2)).getD JsValue.undef

/-- Embeds DataIntegrationService.getSettlementDataFromGoogleSheets.
The connector argument is none when the connector failed to initialize;
otherwise it carries the outcome of reading the Settlements sheet.  The
body destructures a field named data from the searchSheet result; that
field does not exist, so the subsequent .filter on undefined throws and
the catch branch returns the empty list.  The would-be mapping code is
kept under the rows case for fidelity, but it is unreachable. -/
def getSettlementDataFromGoogleSheets (conn : Option (Except String SheetTable))
    (condition : String) (state : Option String) : List SettlementRecord :=
  match conn with
  | none => []
  | some (Except.error _) => []
  | some (Except.ok t) =>
    match searchSheet "Settlements" t condition (some "Condition") 20 with
    | Except.error _ => []
    | Except.ok res =>
      match jsGet res.toObj "data" with
      | JsValue.rows rs =>
        ((rs.filter (fun row =>
            if jsTruthyStr state then
              jsIncludes (strLower (rowField row "State")) (strLower (jsTemplateOpt state))
            else true)).map (fun row =>
          ({ condition := rowField row "Condition", state := rowField row "State",
             settlementRange := jsOr (rowField row "Settlement Range") (rowField row "Settlements"),
             averageSettlement := rowField row "Average Settlement",
             totalCases := rowField row "Total Cases", year := rowField row "Year",
             source := "google_sheets" } : SettlementRecord)))
      | _ => []

/-- Embeds DataIntegrationService.mapSheetRowToArticle.  The rnd
argument stands for the stringified Math.random() used when the row has
no truthy ID. -/
def mapSheetRowToArticle (row : Row) (sheetName : String) (rnd : String) : Option Article :=
  if sheetName = "Medical Conditions" then
    some
      { id := JsId.str ("sheets_medical_" ++ jsOr (rowField row "ID") rnd)
        title := jsOr (rowField row "Condition Name") (rowField row "Name")
        description := jsOr (rowField row "Description") (rowField row "Medical Description")
        slug := createSlug (jsOr (rowField row "Condition Name") (rowField row "Name"))
        category := "medical"
        content :=
          { overview := jsOr (rowField row "Description") (rowField row "Medical Description")
            symptoms := parseList (jsOr (rowField row "Symptoms") (rowField row "Common Symptoms"))
            causes := parseList (jsOr (rowField row "Causes") (rowField row "Risk Factors"))
            treatments := parseList (jsOr (rowField row "Treatments") (rowField row "Treatment Options"))
            legalOptions := parseList (rowField row "Legal Options")
            settlements := jsOr (rowField row "Settlements") (rowField row "Settlement Range") }
        source := "google_sheets" }
  else if sheetName = "Legal Cases" then
    some
      { id := JsId.str ("sheets_legal_" ++ jsOr (rowField row "ID") rnd)
        title := jsOr (rowField row "Case Name") (rowField row "Name")
        description := jsOr (rowField row "Description") (rowField row "Case Summary")
        slug := createSlug (jsOr (rowField row "Case Name") (rowField row "Name"))
        category := "legal"
        content :=
          { overview := jsOr (rowField row "Description") (rowField row "Case Summary")
            symptoms := []
            causes := parseList (rowField row "Alleged Causes")
            treatments := []
            legalOptions := parseList (rowField row "Legal Options")
            settlements := jsOr (rowField row "Settlement Amount") (rowField row "Settlements") }
        source := "google_sheets" }
  else if sheetName = "Manufacturer Cases" then
    some
      { id := JsId.str ("sheets_manufacturer_" ++ jsOr (rowField row "ID") rnd)
        title := jsOr (rowField row "Manufacturer") (rowField row "Company") ++ " - " ++ rowField row "Product"
        description := jsOr (rowField row "Description") (rowField row "Case Summary")
        slug := createSlug (jsOr (rowField row "Manufacturer") (rowField row "Company") ++ "-" ++ rowField row "Product")
        category := "manufacturer"
        content :=
          { overview := jsOr (rowField row "Description") (rowField row "Case Summary")
            symptoms := parseList (rowField row "Symptoms")
            causes := parseList (rowField row "Alleged Causes")
            treatments := []
            legalOptions := parseList (rowField row "Legal Options")
            settlements := jsOr (rowField row "Settlement Amount") (rowField row "Settlements") }
        source := "google_sheets" }
  else none

/-- Shape of one disease entry returned by the HubSpot connector, as
consumed by getArticlesFromHubSpot; absent fields are empty. -/
structure HubSpotDisease where
  id : String
  name : String
  description : String
  category : String
  lastUpdated : String
  symptoms : List String
  causes : List String

/-- Embeds the mapping of getArticlesFromHubSpot over one disease. -/
def mapHubSpotDiseaseToArticle (d : HubSpotDisease) : Article :=
  { id := JsId.str ("hubspot_" ++ d.id)
    title := d.name
    description := d.description
    slug := createSlug d.name
    category := jsOr d.category "medical"
    content := { overview := d.description, symptoms := d.symptoms, causes := d.causes,
                 treatments := [], legalOptions := [], settlements := "" }
    source := "hubspot" }

/-- Boolean test that a string starts with a given tag. -/
def startsWithTag (s tag : String) : Bool := tag.toList.isPrefixOf s.toList

/-- Embeds one entry of the cache Map: the stored data plus the
Date.now() timestamp recorded by setCache. -/
structure CEntry (α : Type) where
  data : α
  timestamp : Nat
deriving DecidableEq, Repr

/-- Lookup of Map.get on the cache, modelled as first match in
insertion order (Map keys are unique, so at most one entry matches). -/
def cacheFind {α : Type} (cache : List (String × CEntry α)) (k : String) : Option (CEntry α) :=
  (cache.find? (fun p => p.1 == k)).map (fun p => p.2)

/-- Embeds Map.delete on the cache. -/
def cacheErase {α : Type} (cache : List (String × CEntry α)) (k : String) :
    List (String × CEntry α) :=
  cache.eraseP (fun p => p.1 == k)

/-- Embeds Map.set: an existing key keeps its position and is
overwritten, a new key is appended. -/
def mapSet {α : Type} (cache : List (String × CEntry α)) (k : String) (e : CEntry α) :
    List (String × CEntry α) :=
  if cache.any (fun p => p.1 == k) then
    cache.map (fun p => if p.1 == k then (k, e) else p)
  else cache ++ [(k, e)]

/-- The facade cache timeout: five minutes in milliseconds. -/
def cacheTimeout : Nat := 5 * 60 * 1000

/-- Embeds DataIntegrationService.getFromCache, returning the read
result together with the cache after the call: a fresh entry is
returned and the cache is untouched; otherwise the key is deleted and
the read signals a miss.  Clock values are naturals; the truncated
subtraction agrees with the JavaScript comparison because a negative
difference and a zero difference are both below the positive timeout. -/
def getFromCache {α : Type} (cache : List (String × CEntry α)) (now : Nat) (key : String)
    (timeout : Nat) : Option α × List (String × CEntry α) :=
  match cacheFind cache key with
  | some e =>
    if now - e.timestamp < timeout then (some e.data, cache)
    else (none, cacheErase cache key)
  | none => (none, cacheErase cache key)

/-- Embeds DataIntegrationService.setCache. -/
def setCache {α : Type} (cache : List (String × CEntry α)) (now : Nat) (key : String) (d : α) :
    List (String × CEntry α) :=
  mapSet cache key { data := d, timestamp := now }

/-- Embeds getAllArticles as a state transformer over the article-list
cache entries: the returned triple is the result, the cache after the
call, and the number of provider adapter calls issued (two on a miss,
zero on a hit).  The provider results stand for the already-caught
outcomes of the two fetch helpers, which return an empty list on any
failure. -/
def getAllArticlesS (sheetsArticles hubspotArticles : List Article) (now : Nat)
    (cache : List (String × CEntry (List Article))) :
    List Article × List (String × CEntry (List Article)) × Nat :=
  match getFromCache cache now "all_articles" cacheTimeout with
  | (some d, c) => (d, c, 0)
  | (none, c) =>
    let allArticles := mergeArticles sheetsArticles hubspotArticles
    if allArticles = [] then
      (getFallbackArticles, setCache c now "all_articles" getFallbackArticles, 2)
    else (allArticles, setCache c now "all_articles" allArticles, 2)

/-- Embeds the template-string cache key of getLawFirms. -/
def lawFirmsKey (specialty location : Option String) : String :=
  "law_firms_" ++ jsTemplateOpt specialty ++ "_" ++ jsTemplateOpt location

/-- Embeds the template-string cache key of getSettlementData. -/
def settlementCacheKey (condition : String) (state : Option String) : String :=
  "settlement_" ++ condition ++ "_" ++ jsTemplateOpt state

/-- Embeds getLawFirms as a state transformer over the law-firm cache
entries, with the two providers given as functions of the query. -/
def getLawFirmsS (fSheets fHub : Option String → Option String → List LawFirm)
    (specialty location : Option String) (now : Nat)
    (cache : List (String × CEntry (List LawFirm))) :
    List LawFirm × List (String × CEntry (List LawFirm)) × Nat :=
  let key := lawFirmsKey specialty location
  match getFromCache cache now key cacheTimeout with
  | (some d, c) => (d, c, 0)
  | (none, c) =>
    let res := getLawFirmsCore (fSheets specialty location) (fHub specialty location)
      specialty location
    (res, setCache c now key res, 2)

/-- One provider settling during the Promise.all fan-out of
getAllArticles, tagged with which adapter it is. -/
inductive ProviderArrival where
  | sheetsDone (articles : List Article)
  | hubspotDone (articles : List Article)

/-- Embeds Promise.all over the two adapter calls: whatever order the
providers settle in, the join exposes the results in argument order
(spreadsheet first, CRM second); it is none only if a provider never
settles. -/
def promiseAllArticles (arrivals : List ProviderArrival) :
    Option (List Article × List Article) :=
  match arrivals.findSome? (fun a => match a with
          | ProviderArrival.sheetsDone l => some l
          | _ => none),
        arrivals.findSome? (fun a => match a with
          | ProviderArrival.hubspotDone l => some l
          | _ => none) with
  | some s, some h => some (s, h)
  | _, _ => none

/-- Embeds the fan-out plus merge of getAllArticles as a function of
the completion schedule. -/
def getAllArticlesFan (arrivals : List ProviderArrival) : Option (List Article) :=
  (promiseAllArticles arrivals).map (fun p => getAllArticlesCore p.1 p.2)

/-- Concrete sample spreadsheet article used by witnesses. -/
def sampleSheetsArticle : Article :=
  { id := JsId.str "sheets_medical_1", title := "Mesothelioma Guide",
    description := "", slug := "mesothelioma-guide", category := "medical",
    content := { overview := "", symptoms := [], causes := [], treatments := [],
                 legalOptions := [], settlements := "" },
    source := "google_sheets" }

/-- Concrete sample CRM article whose title differs from the sample
spreadsheet article only by case. -/
def sampleHubspotArticle : Article :=
  { id := JsId.str "hubspot_1", title := "mesothelioma guide",
    description := "", slug := "mesothelioma-guide", category := "medical",
    content := { overview := "", symptoms := [], causes := [], treatments := [],
                 legalOptions := [], settlements := "" },
    source := "hubspot" }

theorem ne_hyphen_of_isSlugChar {c : Char} (h : isSlugChar c = true) : c ≠ '-' := by
  intro he; rw [he] at h; exact absurd h (by decide)

theorem collapseAux_true_head {l : List Char} {c : Char}
    (h : (collapseAux true l).head? = some c) : isSlugChar c = true := by
  induction l with
  | nil => simp [collapseAux] at h
  | cons a rest ih =>
    by_cases ha : isSlugChar a = true
    · simp [collapseAux, ha] at h
      rw [← h]; exact ha
    · simp [collapseAux, ha] at h
      exact ih h

theorem collapseAux_chain (l : List Char) (b : Bool) :
    List.Chain' HyphenApart (collapseAux b l) := by
  induction l generalizing b with
  | nil => simp [collapseAux]
  | cons a rest ih =>
    by_cases ha : isSlugChar a = true
    · simp only [collapseAux, ha, if_true]
      rw [List.chain'_cons']
      refine ⟨?_, ih false⟩
      intro y _
      intro hae
      exact absurd hae (ne_hyphen_of_isSlugChar ha)
    · cases b with
      | true =>
        simp [collapseAux, ha]
        exact ih true
      | false =>
        have hre : collapseAux false (a :: rest) = '-' :: collapseAux true rest := by
          simp [collapseAux, ha]
        rw [hre, List.chain'_cons']
        refine ⟨?_, ih true⟩
        intro y hy
        intro _
        have := collapseAux_true_head (l := rest) (c := y) (by simpa using hy)
        exact ne_hyphen_of_isSlugChar this

theorem stripLead_eq_dropWhile {l : List Char} (h : List.Chain' HyphenApart l) :
    stripLead l = l.dropWhile (· == '-') := by
  cases l with
  | nil => rfl
  | cons c t =>
    by_cases hc : c = '-'
    · subst hc
      simp [stripLead, List.dropWhile]
      cases t with
      | nil => rfl
      | cons d t' =>
        have hd : d ≠ '-' := (List.chain'_cons.mp h).1 rfl
        have hd2 : (d == '-') = false := beq_eq_false_iff_ne.mpr hd
        simp [List.dropWhile, hd2]
    · have hc2 : (c == '-') = false := beq_eq_false_iff_ne.mpr hc
      simp [stripLead, hc, List.dropWhile, hc2]

theorem chain'_stripLead {l : List Char} (h : List.Chain' HyphenApart l) :
    List.Chain' HyphenApart (stripLead l) := by
  cases l with
  | nil => exact h
  | cons c t =>
    by_cases hc : c = '-'
    · subst hc; simpa [stripLead] using h.tail
    · simpa [stripLead, hc] using h

theorem hyphenApart_flip {a b : Char} (h : HyphenApart a b) : flip HyphenApart a b := by
  intro hb
  intro ha
  exact absurd hb (h ha)

theorem chain'_reverse_of_chain' {l : List Char} (h : List.Chain' HyphenApart l) :
    List.Chain' HyphenApart l.reverse := by
  rw [List.chain'_reverse]
  exact List.Chain'.imp (fun a b hab => by
    intro hb ha
    exact absurd hb (hab ha)) h

/-- Claim C6: createSlug is deterministic, agrees everywhere with the
spec-worded normalization (lowercase, collapse maximal non-alphanumeric
runs to single hyphens, strip leading and trailing hyphens), maps the
example title to the required slug, and identifies any two titles with
the same normalization. -/
theorem createSlug_spec_correct :
    (∀ s : String, createSlug s = createSlugSpec s)
    ∧ createSlug "3M Combat Arms Earplugs!" = "3m-combat-arms-earplugs"
    ∧ (∀ t1 t2 : String, createSlugSpec t1 = createSlugSpec t2 → createSlug t1 = createSlug t2) := by
  have key : ∀ s : String, createSlug s = createSlugSpec s := by
    intro s
    unfold createSlug createSlugSpec
    have h0 : List.Chain' HyphenApart (collapseAux false (s.toList.map jsToLower)) :=
      collapseAux_chain _ _
    rw [stripLead_eq_dropWhile h0]
    have h1 : List.Chain' HyphenApart
        ((collapseAux false (s.toList.map jsToLower)).dropWhile (· == '-')) := by
      rw [← stripLead_eq_dropWhile h0]
      exact chain'_stripLead h0
    rw [stripLead_eq_dropWhile (chain'_reverse_of_chain' h1)]
  refine ⟨key, by decide, ?_⟩
  intro t1 t2 h
  rw [key t1, key t2, h]

/-- Witness for claim C6: two differently written titles with the same
normalization get the same slug, via the theorem at a concrete input. -/
theorem createSlug_spec_correct_witness :
    createSlug "Mesothelioma  Guide" = createSlug "mesothelioma guide" :=
  createSlug_spec_correct.2.2 "Mesothelioma  Guide" "mesothelioma guide" (by decide)

theorem mem_eraseP_of_pred_false {α : Type} {p : α → Bool} {l : List α} {a : α}
    (h : a ∈ l) (hp : p a = false) : a ∈ l.eraseP p := by
  induction l with
  | nil => cases h
  | cons x xs ih =>
    rw [List.eraseP_cons]
    rcases List.mem_cons.mp h with he | hmem
    · subst he
      rw [hp]
      simp only [cond_false]
      exact List.mem_cons_self a (List.eraseP p xs)
    · by_cases hx : p x = true
      · rw [hx]
        simp only [cond_true]
        exact hmem
      · have hx2 : p x = false := by
          cases hpx : p x
          · rfl
          · exact absurd hpx hx
        rw [hx2]
        simp only [cond_false]
        exact List.mem_cons_of_mem x (ih hmem)

/-- Claim C4 as amended: a cache get returns the stored data exactly
when the entry is present and now minus its timestamp is below the ttl;
a hit leaves the store unchanged; a miss returns nothing and deletes
that key from the store; entries under other keys always survive. -/
theorem claim4_amended {α : Type} (cache : List (String × CEntry α)) (now : Nat)
    (key : String) (timeout : Nat) :
    (∀ d : α, (getFromCache cache now key timeout).1 = some d ↔
      ∃ e, cacheFind cache key = some e ∧ now - e.timestamp < timeout ∧ d = e.data)
    ∧ ((∃ e, cacheFind cache key = some e ∧ now - e.timestamp < timeout) →
        (getFromCache cache now key timeout).2 = cache)
    ∧ ((¬ ∃ e, cacheFind cache key = some e ∧ now - e.timestamp < timeout) →
        (getFromCache cache now key timeout).1 = none ∧
        (getFromCache cache now key timeout).2 = cacheErase cache key)
    ∧ (∀ p ∈ cache, p.1 ≠ key → p ∈ (getFromCache cache now key timeout).2) := by
  have herase : ∀ p ∈ cache, p.1 ≠ key → p ∈ cacheErase cache key := by
    intro p hp hne
    refine mem_eraseP_of_pred_false hp ?_
    exact beq_eq_false_iff_ne.mpr hne
  cases hfind : cacheFind cache key with
  | none =>
    refine ⟨?_, ?_, ?_, ?_⟩
    · intro d
      simp [getFromCache, hfind]
    · rintro ⟨e, he, -⟩
      simp at he
    · intro _
      simp [getFromCache, hfind]
    · intro p hp hne
      simpa [getFromCache, hfind] using herase p hp hne
  | some e =>
    by_cases ht : now - e.timestamp < timeout
    · refine ⟨?_, ?_, ?_, ?_⟩
      · intro d
        simp only [getFromCache, hfind, ht, if_true]
        constructor
        · intro h
          injection h with h
          exact ⟨e, rfl, ht, h.symm⟩
        · rintro ⟨e', he', -, hd⟩
          injection he' with he'
          rw [hd, ← he']
      · intro _
        simp [getFromCache, hfind, ht]
      · intro hcon
        exact absurd ⟨e, rfl, ht⟩ hcon
      · intro p hp _
        simpa [getFromCache, hfind, ht] using hp
    · refine ⟨?_, ?_, ?_, ?_⟩
      · intro d
        simp only [getFromCache, hfind, ht, if_false]
        constructor
        · intro h
          exact Option.noConfusion h
        · rintro ⟨e', he', ht', -⟩
          injection he' with he'
          rw [← he'] at ht'
          exact absurd ht' ht
      · rintro ⟨e', he', ht'⟩
        injection he' with he'
        rw [← he'] at ht'
        exact absurd ht' ht
      · intro _
        simp [getFromCache, hfind, ht]
      · intro p hp hne
        simpa [getFromCache, hfind, ht] using herase p hp hne

/-- Counterexample for claim C4 as stated: reading the key k at time
cacheTimeout, after a store at time 0, misses and deletes the entry,
so a get does remove stored entries. -/
theorem claim4_cex :
    (getFromCache [("k", ({ data := 0, timestamp := 0 } : CEntry Nat))]
        cacheTimeout "k" cacheTimeout).2 = []
    ∧ ([("k", ({ data := 0, timestamp := 0 } : CEntry Nat))] :
        List (String × CEntry Nat)) ≠ [] := by
  constructor
  · rfl
  · decide

/-- Witness for claim C4 as amended: a fresh hit at a concrete cache
leaves the store unchanged. -/
theorem claim4_witness :
    (getFromCache [("k", ({ data := 7, timestamp := 0 } : CEntry Nat))] 1 "k" cacheTimeout).2
      = [("k", ({ data := 7, timestamp := 0 } : CEntry Nat))] :=
  (claim4_amended [("k", { data := 7, timestamp := 0 })] 1 "k" cacheTimeout).2.1
    ⟨{ data := 7, timestamp := 0 }, rfl, by decide⟩

theorem cacheFind_map_overwrite {α : Type} (c : List (String × CEntry α)) (k : String)
    (e : CEntry α) (hany : c.any (fun p => p.1 == k) = true) :
    cacheFind (c.map (fun p => if p.1 == k then (k, e) else p)) k = some e := by
  induction c with
  | nil => simp at hany
  | cons p c ih =>
    by_cases hp : (p.1 == k) = true
    · simp only [List.map_cons, hp, if_true]
      simp [cacheFind, List.find?]
    · simp only [List.map_cons, hp, if_false]
      have hany' : c.any (fun p => p.1 == k) = true := by
        simp only [List.any_cons, hp, Bool.false_or] at hany
        exact hany
      have hp2 : (p.1 == k) = false := by
        cases hpx : (p.1 == k)
        · rfl
        · exact absurd hpx hp
      simpa [cacheFind, List.find?, hp2] using ih hany'

theorem cacheFind_append_new {α : Type} (c : List (String × CEntry α)) (k : String)
    (e : CEntry α) (hany : c.any (fun p => p.1 == k) = false) :
    cacheFind (c ++ [(k, e)]) k = some e := by
  induction c with
  | nil => simp [cacheFind, List.find?]
  | cons p c ih =>
    simp only [List.any_cons, Bool.or_eq_false_iff] at hany
    simpa [cacheFind, List.find?, hany.1] using ih hany.2

theorem cacheFind_mapSet {α : Type} (c : List (String × CEntry α)) (k : String) (e : CEntry α) :
    cacheFind (mapSet c k e) k = some e := by
  unfold mapSet
  by_cases hany : c.any (fun p => p.1 == k) = true
  · rw [if_pos hany]
    exact cacheFind_map_overwrite c k e hany
  · rw [if_neg hany]
    have hany2 : c.any (fun p => p.1 == k) = false := by
      cases hx : c.any (fun p => p.1 == k)
      · rfl
      · exact absurd hx hany
    exact cacheFind_append_new c k e hany2

/-- Claim C5: when a first getAllArticles call misses the cache and
stores its result, a second call within the ttl returns the identical
result, leaves the cache unchanged and issues zero provider calls. -/
theorem claim5_second_call_cached (sheetsArticles hubspotArticles : List Article)
    (cache : List (String × CEntry (List Article))) (t1 t2 : Nat)
    (hmiss : (getFromCache cache t1 "all_articles" cacheTimeout).1 = none)
    (httl : t2 - t1 < cacheTimeout) :
    getAllArticlesS sheetsArticles hubspotArticles t2
        (getAllArticlesS sheetsArticles hubspotArticles t1 cache).2.1
      = ((getAllArticlesS sheetsArticles hubspotArticles t1 cache).1,
         (getAllArticlesS sheetsArticles hubspotArticles t1 cache).2.1, 0) := by
  have h1 : getFromCache cache t1 "all_articles" cacheTimeout
      = (none, (getFromCache cache t1 "all_articles" cacheTimeout).2) := by
    cases hg : getFromCache cache t1 "all_articles" cacheTimeout with
    | mk a b =>
      rw [hg] at hmiss
      simp only at hmiss
      rw [hmiss]
  have hsecond : ∀ v : List Article,
      getAllArticlesS sheetsArticles hubspotArticles t2
          (setCache (getFromCache cache t1 "all_articles" cacheTimeout).2 t1 "all_articles" v)
        = (v, setCache (getFromCache cache t1 "all_articles" cacheTimeout).2 t1 "all_articles" v, 0) := by
    intro v
    have hg : getFromCache
        (setCache (getFromCache cache t1 "all_articles" cacheTimeout).2 t1 "all_articles" v)
        t2 "all_articles" cacheTimeout
        = (some v,
           setCache (getFromCache cache t1 "all_articles" cacheTimeout).2 t1 "all_articles" v) := by
      unfold getFromCache setCache
      rw [cacheFind_mapSet]
      simp [httl]
    unfold getAllArticlesS
    rw [hg]
  by_cases hm : mergeArticles sheetsArticles hubspotArticles = []
  · have hfirst : getAllArticlesS sheetsArticles hubspotArticles t1 cache
        = (getFallbackArticles,
           setCache (getFromCache cache t1 "all_articles" cacheTimeout).2 t1 "all_articles"
             getFallbackArticles, 2) := by
      unfold getAllArticlesS
      rw [h1]
      simp [hm]
    rw [hfirst]
    exact hsecond getFallbackArticles
  · have hfirst : getAllArticlesS sheetsArticles hubspotArticles t1 cache
        = (mergeArticles sheetsArticles hubspotArticles,
           setCache (getFromCache cache t1 "all_articles" cacheTimeout).2 t1 "all_articles"
             (mergeArticles sheetsArticles hubspotArticles), 2) := by
      unfold getAllArticlesS
      rw [h1]
      simp [hm]
    rw [hfirst]
    exact hsecond (mergeArticles sheetsArticles hubspotArticles)

/-- Witness for claim C5 at a concrete state: an empty cache at time 0,
a second call at time 1. -/
theorem claim5_witness :
    getAllArticlesS [] [] 1 (getAllArticlesS [] [] 0 []).2.1
      = ((getAllArticlesS [] [] 0 []).1, (getAllArticlesS [] [] 0 []).2.1, 0) :=
  claim5_second_call_cached [] [] [] 0 1 rfl (by decide)

/-- Claim C10: the raw template interpolation of the law-firm cache key
gives the same key for the null arguments and for the strings spelled
null, so within the ttl the second of the two distinct queries answers
with the cached result of the first query and issues no provider calls. -/
theorem claim10_key_collision :
    lawFirmsKey none none = "law_firms_null_null"
    ∧ lawFirmsKey (some "null") (some "null") = "law_firms_null_null"
    ∧ ∀ (fSheets fHub : Option String → Option String → List LawFirm)
        (cache : List (String × CEntry (List LawFirm))) (t1 t2 : Nat),
        (getFromCache cache t1 "law_firms_null_null" cacheTimeout).1 = none →
        t2 - t1 < cacheTimeout →
        getLawFirmsS fSheets fHub (some "null") (some "null") t2
            (getLawFirmsS fSheets fHub none none t1 cache).2.1
          = ((getLawFirmsS fSheets fHub none none t1 cache).1,
             (getLawFirmsS fSheets fHub none none t1 cache).2.1, 0) := by
  have hk1 : lawFirmsKey none none = "law_firms_null_null" := by decide
  have hk2 : lawFirmsKey (some "null") (some "null") = "law_firms_null_null" := by decide
  refine ⟨hk1, hk2, ?_⟩
  intro fSheets fHub cache t1 t2 hmiss httl
  have h1 : getFromCache cache t1 "law_firms_null_null" cacheTimeout
      = (none, (getFromCache cache t1 "law_firms_null_null" cacheTimeout).2) := by
    cases hg : getFromCache cache t1 "law_firms_null_null" cacheTimeout with
    | mk a b =>
      rw [hg] at hmiss
      simp only at hmiss
      rw [hmiss]
  have hfirst : getLawFirmsS fSheets fHub none none t1 cache
      = (getLawFirmsCore (fSheets none none) (fHub none none) none none,
         setCache (getFromCache cache t1 "law_firms_null_null" cacheTimeout).2 t1
           "law_firms_null_null"
           (getLawFirmsCore (fSheets none none) (fHub none none) none none), 2) := by
    unfold getLawFirmsS
    simp only [hk1]
    rw [h1]
  rw [hfirst]
  have hg : getFromCache
      (setCache (getFromCache cache t1 "law_firms_null_null" cacheTimeout).2 t1
        "law_firms_null_null"
        (getLawFirmsCore (fSheets none none) (fHub none none) none none))
      t2 "law_firms_null_null" cacheTimeout
      = (some (getLawFirmsCore (fSheets none none) (fHub none none) none none),
         setCache (getFromCache cache t1 "law_firms_null_null" cacheTimeout).2 t1
           "law_firms_null_null"
           (getLawFirmsCore (fSheets none none) (fHub none none) none none)) := by
    unfold getFromCache setCache
    rw [cacheFind_mapSet]
    simp [httl]
  unfold getLawFirmsS
  simp only [hk2]
  rw [hg]

/-- Witness for claim C10 at concrete providers and times: the second,
textually different query returns the result of the first query. -/
theorem claim10_witness :
    getLawFirmsS (fun _ _ => []) (fun _ _ => []) (some "null") (some "null") 1
        (getLawFirmsS (fun _ _ => []) (fun _ _ => []) none none 0 []).2.1
      = ((getLawFirmsS (fun _ _ => []) (fun _ _ => []) none none 0 []).1,
         (getLawFirmsS (fun _ _ => []) (fun _ _ => []) none none 0 []).2.1, 0) :=
  claim10_key_collision.2.2 (fun _ _ => []) (fun _ _ => []) [] 0 1 rfl (by decide)

theorem dedupArticlesAux_filter (l : List Article) (seen : List String) (key : String) :
    (dedupArticlesAux seen l).filter (fun a => titleKey a == key)
      = if key ∈ seen then [] else (l.find? (fun a => titleKey a == key)).toList := by
  induction l generalizing seen with
  | nil =>
    by_cases hks : key ∈ seen
    · simp [dedupArticlesAux, hks]
    · simp [dedupArticlesAux, hks, List.find?]
  | cons a l ih =>
    by_cases hk : titleKey a ∈ seen
    · have hstep : dedupArticlesAux seen (a :: l) = dedupArticlesAux seen l := by
        simp [dedupArticlesAux, hk]
      rw [hstep, ih seen]
      by_cases hks : key ∈ seen
      · simp [hks]
      · have hne : (titleKey a == key) = false :=
          beq_eq_false_iff_ne.mpr (fun he => hks (he ▸ hk))
        simp [hks, List.find?, hne]
    · have hstep : dedupArticlesAux seen (a :: l)
          = a :: dedupArticlesAux (titleKey a :: seen) l := by
        simp [dedupArticlesAux, hk]
      rw [hstep, List.filter_cons]
      by_cases hak : (titleKey a == key) = true
      · have hkeq : titleKey a = key := eq_of_beq hak
        have hkn : key ∉ seen := fun hm => hk (hkeq ▸ hm)
        have hmem : key ∈ titleKey a :: seen := by
          rw [hkeq]
          exact List.mem_cons_self key seen
        rw [if_pos (by simpa using hak), ih (titleKey a :: seen), if_pos hmem]
        simp [hkn, List.find?, hak]
      · have hak2 : (titleKey a == key) = false := by
          cases hx : (titleKey a == key)
          · rfl
          · exact absurd hx hak
        have hknc : (key ∈ titleKey a :: seen) ↔ key ∈ seen := by
          constructor
          · intro hm
            rcases List.mem_cons.mp hm with he | hm2
            · exact absurd (he ▸ rfl : titleKey a = key)
                (fun hq => by rw [hq] at hak2; simp at hak2)
            · exact hm2
          · exact fun hm => List.mem_cons_of_mem _ hm
        rw [if_neg (by simp [hak2]), ih (titleKey a :: seen)]
        by_cases hks : key ∈ seen
        · simp [hks, hknc]
        · simp [hks, hknc, List.find?, hak2]

theorem dedupArticlesAux_cons_ne_nil (a : Article) (l : List Article) :
    dedupArticlesAux [] (a :: l) ≠ [] := by
  simp [dedupArticlesAux]

/-- Claim C2: whichever provider settles first, the merged and
deduplicated article list of getAllArticles keeps exactly one record
for a lowercased title shared between a spreadsheet record and a CRM
record, and that record comes from the spreadsheet list. -/
theorem claim2_dedup_priority (sheetsArticles hubspotArticles : List Article)
    (s h : Article) (arrivals : List ProviderArrival)
    (hs : s ∈ sheetsArticles) (hh : h ∈ hubspotArticles) (ht : titleKey s = titleKey h)
    (horder : arrivals = [ProviderArrival.sheetsDone sheetsArticles,
                          ProviderArrival.hubspotDone hubspotArticles]
      ∨ arrivals = [ProviderArrival.hubspotDone hubspotArticles,
                    ProviderArrival.sheetsDone sheetsArticles]) :
    getAllArticlesFan arrivals = some (mergeArticles sheetsArticles hubspotArticles)
    ∧ ((mergeArticles sheetsArticles hubspotArticles).filter
        (fun x => titleKey x == titleKey s)).length = 1
    ∧ ∀ x ∈ mergeArticles sheetsArticles hubspotArticles,
        titleKey x = titleKey s → x ∈ sheetsArticles := by
  have hne : mergeArticles sheetsArticles hubspotArticles ≠ [] := by
    cases sheetsArticles with
    | nil => cases hs
    | cons a l =>
      unfold mergeArticles
      rw [List.cons_append]
      exact dedupArticlesAux_cons_ne_nil a (l ++ hubspotArticles)
  have hcore : getAllArticlesCore sheetsArticles hubspotArticles
      = mergeArticles sheetsArticles hubspotArticles := by
    unfold getAllArticlesCore
    simp [hne]
  have hfan : getAllArticlesFan arrivals
      = some (mergeArticles sheetsArticles hubspotArticles) := by
    rcases horder with rfl | rfl
    · show some (getAllArticlesCore sheetsArticles hubspotArticles) = _
      rw [hcore]
    · show some (getAllArticlesCore sheetsArticles hubspotArticles) = _
      rw [hcore]
  obtain ⟨a, ha⟩ : ∃ a, sheetsArticles.find? (fun x => titleKey x == titleKey s) = some a := by
    have h1 : (sheetsArticles.find? (fun x => titleKey x == titleKey s)).isSome :=
      List.find?_isSome.mpr ⟨s, hs, by simp⟩
    exact Option.isSome_iff_exists.mp h1
  have hfull : (sheetsArticles ++ hubspotArticles).find? (fun x => titleKey x == titleKey s)
      = some a := by
    rw [List.find?_append, ha]
    rfl
  have hfilter : (mergeArticles sheetsArticles hubspotArticles).filter
      (fun x => titleKey x == titleKey s) = [a] := by
    unfold mergeArticles
    rw [dedupArticlesAux_filter]
    simp [hfull]
  refine ⟨hfan, by rw [hfilter]; rfl, ?_⟩
  intro x hx hkey
  have hxf : x ∈ (mergeArticles sheetsArticles hubspotArticles).filter
      (fun y => titleKey y == titleKey s) :=
    List.mem_filter.mpr ⟨hx, by simp [hkey]⟩
  rw [hfilter] at hxf
  have hxa : x = a := by simpa using hxf
  rw [hxa]
  exact List.mem_of_find?_eq_some ha

/-- Witness for claim C2 at concrete records, with the CRM provider
settling first: the spreadsheet record still wins. -/
theorem claim2_witness :
    getAllArticlesFan [ProviderArrival.hubspotDone [sampleHubspotArticle],
        ProviderArrival.sheetsDone [sampleSheetsArticle]]
      = some (mergeArticles [sampleSheetsArticle] [sampleHubspotArticle])
    ∧ ((mergeArticles [sampleSheetsArticle] [sampleHubspotArticle]).filter
        (fun x => titleKey x == titleKey sampleSheetsArticle)).length = 1
    ∧ ∀ x ∈ mergeArticles [sampleSheetsArticle] [sampleHubspotArticle],
        titleKey x = titleKey sampleSheetsArticle → x ∈ [sampleSheetsArticle] :=
  claim2_dedup_priority [sampleSheetsArticle] [sampleHubspotArticle]
    sampleSheetsArticle sampleHubspotArticle
    [ProviderArrival.hubspotDone [sampleHubspotArticle],
     ProviderArrival.sheetsDone [sampleSheetsArticle]]
    (List.mem_singleton.mpr rfl) (List.mem_singleton.mpr rfl) (by decide) (Or.inr rfl)

/-- Claim C3: merging two settlement records for the same condition and
state, one with a populated settlementRange and one without, in either
order and under any split between the two providers, yields exactly the
record with the populated settlementRange. -/
theorem claim3_settlement_merge (r1 r2 : SettlementRecord)
    (xs ys : List SettlementRecord)
    (hc : r1.condition = r2.condition) (hst : r1.state = r2.state)
    (h1 : r1.settlementRange ≠ "") (h2 : r2.settlementRange = "")
    (horder : xs ++ ys = [r1, r2] ∨ xs ++ ys = [r2, r1]) :
    mergeSettlementData xs ys = [r1] := by
  have hkey : settlementKey r2 = settlementKey r1 := by
    unfold settlementKey
    rw [hc, hst]
  have hb1 : (r1.settlementRange != "") = true := bne_iff_ne.mpr h1
  have hb2 : (r2.settlementRange == "") = true := beq_iff_eq.mpr h2
  have hb2ne : (r2.settlementRange != "") = false := by
    simp [bne, hb2]
  unfold mergeSettlementData
  rcases horder with he | he
  · rw [he]
    simp only [List.foldl_cons, List.foldl_nil]
    rw [hkey]
    have hg1 : groupInsert [] (settlementKey r1) r1 = [(settlementKey r1, [r1])] := by
      simp [groupInsert]
    rw [hg1]
    have hg2 : groupInsert [(settlementKey r1, [r1])] (settlementKey r1) r2
        = [(settlementKey r1, [r1, r2])] := by
      simp [groupInsert]
    rw [hg2]
    simp only [reduceBest, List.filterMap, List.foldl_cons, List.foldl_nil]
    simp [hb2ne]
  · rw [he]
    simp only [List.foldl_cons, List.foldl_nil]
    rw [hkey]
    have hg1 : groupInsert [] (settlementKey r1) r2 = [(settlementKey r1, [r2])] := by
      simp [groupInsert]
    rw [hg1]
    have hg2 : groupInsert [(settlementKey r1, [r2])] (settlementKey r1) r1
        = [(settlementKey r1, [r2, r1])] := by
      simp [groupInsert]
    rw [hg2]
    simp only [reduceBest, List.filterMap, List.foldl_cons, List.foldl_nil]
    simp [hb1, hb2]

/-- Witness for claim C3 at concrete records: a record without a range
from the spreadsheet provider and one with a range from the CRM
provider merge to the record with the range. -/
theorem claim3_witness :
    mergeSettlementData
      [{ condition := "Mesothelioma", state := "California", settlementRange := "",
         averageSettlement := "", totalCases := "", year := "", source := "google_sheets" }]
      [{ condition := "Mesothelioma", state := "California", settlementRange := "$1.2M",
         averageSettlement := "", totalCases := "", year := "", source := "hubspot" }]
      = [{ condition := "Mesothelioma", state := "California", settlementRange := "$1.2M",
           averageSettlement := "", totalCases := "", year := "", source := "hubspot" }] :=
  claim3_settlement_merge
    { condition := "Mesothelioma", state := "California", settlementRange := "$1.2M",
      averageSettlement := "", totalCases := "", year := "", source := "hubspot" }
    { condition := "Mesothelioma", state := "California", settlementRange := "",
      averageSettlement := "", totalCases := "", year := "", source := "google_sheets" }
    [{ condition := "Mesothelioma", state := "California", settlementRange := "",
       averageSettlement := "", totalCases := "", year := "", source := "google_sheets" }]
    [{ condition := "Mesothelioma", state := "California", settlementRange := "$1.2M",
       averageSettlement := "", totalCases := "", year := "", source := "hubspot" }]
    rfl rfl (by decide) rfl (Or.inr rfl)

/-- Claim C9: the sheets settlement fetch always returns the empty
list, whatever the connector state and sheet contents, because the
field named data destructured from the searchSheet result does not
exist; hence the spreadsheet contributes nothing to the settlement
merge. -/
theorem claim9_sheets_settlements_empty :
    ∀ (conn : Option (Except String SheetTable)) (condition : String) (state : Option String),
      getSettlementDataFromGoogleSheets conn condition state = []
      ∧ ∀ hubData : List SettlementRecord,
          mergeSettlementData (getSettlementDataFromGoogleSheets conn condition state) hubData
            = mergeSettlementData [] hubData := by
  intro conn condition state
  have hdata : ∀ res : SearchResult, jsGet res.toObj "data" = JsValue.undef := by
    intro res
    cases res with
    | mk results total q c =>
      cases q <;> cases c <;> rfl
  have hmain : getSettlementDataFromGoogleSheets conn condition state = [] := by
    cases conn with
    | none => rfl
    | some e =>
      cases e with
      | error msg => rfl
      | ok t =>
        simp only [getSettlementDataFromGoogleSheets]
        cases searchSheet "Settlements" t condition (some "Condition") 20 with
        | error msg => rfl
        | ok res => simp [hdata res]
  exact ⟨hmain, fun hubData => by rw [hmain]⟩

/-- Claim C8 as amended: on a sheet with data rows, the search returns
the first at-most-limit matching rows under the case-insensitive
substring test (per named column when the column resolves, otherwise
across all field values) together with the full match count; an
unresolved column name throws a column-not-found error instead, and an
empty sheet short-circuits to an empty result for any column. -/
theorem claim8_amended (sheetName : String) (t : SheetTable) (query : String) (limit : Nat) :
    (t.data ≠ [] →
      searchSheet sheetName t query none limit
        = Except.ok { results := (t.data.filter (rowMatchesAny (strLower query))).take limit,
                      total := (t.data.filter (rowMatchesAny (strLower query))).length,
                      query? := some query, column? := some "all" })
    ∧ (∀ (col : String) (i : Nat), t.data ≠ [] →
        t.headers.findIdx? (fun h => strLower h == strLower col) = some i →
        searchSheet sheetName t query (some col) limit
          = Except.ok { results :=
                            (t.data.filter (rowMatchesColumn t.headers i (strLower query))).take limit,
                        total :=
                            (t.data.filter (rowMatchesColumn t.headers i (strLower query))).length,
                        query? := some query, column? := some col })
    ∧ (∀ col : String, t.data ≠ [] →
        t.headers.findIdx? (fun h => strLower h == strLower col) = none →
        searchSheet sheetName t query (some col) limit
          = Except.error ("Column " ++ col ++ " not found in sheet " ++ sheetName))
    ∧ (t.data = [] → ∀ col : Option String,
        searchSheet sheetName t query col limit
          = Except.ok { results := [], total := 0, query? := none, column? := none }) := by
  refine ⟨?_, ?_, ?_, ?_⟩
  · intro hne
    simp [searchSheet, hne]
  · intro col i hne hidx
    simp [searchSheet, hne, hidx]
  · intro col hne hidx
    simp [searchSheet, hne, hidx]
  · intro he col
    cases col <;> simp [searchSheet, he]

/-- Counterexample for claim C8 as stated: a search naming a column
absent from a nonempty sheet throws instead of returning matches. -/
theorem claim8_cex :
    searchSheet "Settlements" (readSheetTable [["Condition"], ["asbestos"]]) "asbestos"
        (some "Nope") 10
      = Except.error "Column Nope not found in sheet Settlements" := by
  rfl

/-- Witness for claim C8 as amended: a resolving column search at a
concrete sheet. -/
theorem claim8_witness :
    searchSheet "S" (readSheetTable [["A"], ["x"], ["y"]]) "x" (some "a") 10
      = Except.ok { results := ((readSheetTable [["A"], ["x"], ["y"]]).data.filter
                        (rowMatchesColumn (readSheetTable [["A"], ["x"], ["y"]]).headers 0
                          (strLower "x"))).take 10,
                    total := ((readSheetTable [["A"], ["x"], ["y"]]).data.filter
                        (rowMatchesColumn (readSheetTable [["A"], ["x"], ["y"]]).headers 0
                          (strLower "x"))).length,
                    query? := some "x", column? := some "a" } :=
  (claim8_amended "S" (readSheetTable [["A"], ["x"], ["y"]]) "x" 10).2.1 "a" 0
    (by decide) (by decide)

/-- Claim C1 as amended: with every provider failing or empty, none of
the facade operations throws; getAllArticles returns the nonempty
fallback articles and getSettlementData the nonempty fallback
settlement record, all tagged fallback; getLawFirms returns the
fallback firms unfiltered for a falsy specialty but filtered by a
truthy specialty, which can leave an empty list; searchCondition
composes exactly these results. -/
theorem claim1_amended :
    (getAllArticlesCore [] [] = getFallbackArticles
      ∧ getFallbackArticles ≠ []
      ∧ ∀ a ∈ getFallbackArticles, a.source = "fallback")
    ∧ (∀ (c : String) (st : Option String),
        getSettlementDataCore [] [] c st = getDefaultSettlementData c
        ∧ getDefaultSettlementData c ≠ []
        ∧ ∀ r ∈ getDefaultSettlementData c, r.source = "fallback")
    ∧ (getLawFirmsCore [] [] none none = getFallbackLawFirms
      ∧ getFallbackLawFirms ≠ []
      ∧ ∀ f ∈ getFallbackLawFirms, f.source = "fallback")
    ∧ (∀ s : String, s ≠ "" → getLawFirmsCore [] [] (some s) none = filterFallbackFirms s)
    ∧ (∀ c : String,
        (searchConditionCore [] [] [] [] [] [] c).settlements = getDefaultSettlementData c
        ∧ (searchConditionCore [] [] [] [] [] [] c).lawFirms
            = getLawFirmsCore [] [] (some c) none
        ∧ (searchConditionCore [] [] [] [] [] [] c).articles
            = getFallbackArticles.filter (articleMatchesCondition c)) := by
  refine ⟨⟨rfl, by simp [getFallbackArticles], ?_⟩, ?_, ⟨rfl, by simp [getFallbackLawFirms], ?_⟩, ?_, ?_⟩
  · intro a ha
    simp [getFallbackArticles] at ha
    rcases ha with rfl | rfl | rfl | rfl | rfl | rfl <;> rfl
  · intro c st
    refine ⟨rfl, ?_, ?_⟩
    · simp only [getDefaultSettlementData]
      split
      · simp
      · split
        · simp
        · split
          · simp
          · split <;> simp
    · intro r hr
      simp only [getDefaultSettlementData] at hr
      split at hr
      · simp at hr; rw [hr]
      · split at hr
        · simp at hr; rw [hr]
        · split at hr
          · simp at hr; rw [hr]
          · split at hr
            · simp at hr; rw [hr]
            · simp at hr; rw [hr]
  · intro f hf
    simp [getFallbackLawFirms] at hf
    rcases hf with rfl | rfl | rfl <;> rfl
  · intro s hs
    simp [getLawFirmsCore, hs]
  · intro c
    exact ⟨rfl, rfl, rfl⟩

/-- Counterexample for claim C1 as stated: with both providers empty,
getLawFirms for the specialty xyzzy filters the fallback list down to
the empty array, so the operation neither returns the fallback dataset
nor avoids empty results. -/
theorem claim1_cex : getLawFirmsCore [] [] (some "xyzzy") none = [] := by rfl

/-- Witness for claim C1 as amended: a truthy specialty filters the
fallback firms. -/
theorem claim1_witness :
    getLawFirmsCore [] [] (some "mesothelioma") none = filterFallbackFirms "mesothelioma" :=
  claim1_amended.2.2.2.1 "mesothelioma" (by decide)

theorem startsWithTag_append (p q x : String) (h : p.toList <+: q.toList) :
    startsWithTag (q ++ x) p = true := by
  unfold startsWithTag
  rw [ List.isPrefixOf_iff_prefix]
  have hqx : (q ++ x).toList = q.toList ++ x.toList := String.data_append q x
  rw [hqx]
  exact h.trans (List.prefix_append q.toList x.toList)

/-- Claim C7 as amended: records mapped from provider data carry string
ids prefixed by their source tag, and the fallback law firms carry
fallback-prefixed string ids, but the fallback articles carry plain
numeric ids with no source-tag string at all. -/
theorem claim7_amended :
    (∀ (row : Row) (sheetName rnd : String) (a : Article),
        mapSheetRowToArticle row sheetName rnd = some a →
        ∃ s, a.id = JsId.str s ∧ startsWithTag s "sheets_" = true)
    ∧ (∀ d : HubSpotDisease, ∃ s, (mapHubSpotDiseaseToArticle d).id = JsId.str s
        ∧ startsWithTag s "hubspot_" = true)
    ∧ (∀ f ∈ getFallbackLawFirms, ∃ s, f.id = JsId.str s ∧ startsWithTag s "fallback_" = true)
    ∧ (∀ a ∈ getFallbackArticles, ∃ n, a.id = JsId.num n) := by
  refine ⟨?_, ?_, ?_, ?_⟩
  · intro row sheetName rnd a h
    unfold mapSheetRowToArticle at h
    split_ifs at h with h1 h2 h3
    · injection h with h
      rw [← h]
      exact ⟨"sheets_medical_" ++ jsOr (rowField row "ID") rnd, rfl,
        startsWithTag_append "sheets_" "sheets_medical_" _ (by decide)⟩
    · injection h with h
      rw [← h]
      exact ⟨"sheets_legal_" ++ jsOr (rowField row "ID") rnd, rfl,
        startsWithTag_append "sheets_" "sheets_legal_" _ (by decide)⟩
    · injection h with h
      rw [← h]
      exact ⟨"sheets_manufacturer_" ++ jsOr (rowField row "ID") rnd, rfl,
        startsWithTag_append "sheets_" "sheets_manufacturer_" _ (by decide)⟩
  · intro d
    exact ⟨"hubspot_" ++ d.id, rfl,
      startsWithTag_append "hubspot_" "hubspot_" d.id (by decide)⟩
  · intro f hf
    simp [getFallbackLawFirms] at hf
    rcases hf with rfl | rfl | rfl
    · exact ⟨"fallback_firm_1", rfl, by decide⟩
    · exact ⟨"fallback_firm_2", rfl, by decide⟩
    · exact ⟨"fallback_firm_3", rfl, by decide⟩
  · intro a ha
    simp [getFallbackArticles] at ha
    rcases ha with rfl | rfl | rfl | rfl | rfl | rfl
    · exact ⟨1, rfl⟩
    · exact ⟨2, rfl⟩
    · exact ⟨3, rfl⟩
    · exact ⟨4, rfl⟩
    · exact ⟨5, rfl⟩
    · exact ⟨6, rfl⟩

/-- Counterexample for claim C7 as stated: the first fallback article
carries no string id at all, so its id is not a fallback-prefixed
string. -/
theorem claim7_cex : ∃ a ∈ getFallbackArticles, ∀ s : String, a.id ≠ JsId.str s :=
  ⟨fallbackArticle1, by simp [getFallbackArticles],
   fun s h => by simp [fallbackArticle1] at h⟩

/-- Witness for claim C7 as amended: the first fallback law firm has a
fallback-prefixed string id. -/
theorem claim7_witness :
    ∃ s, fallbackFirm1.id = JsId.str s ∧ startsWithTag s "fallback_" = true :=
  claim7_amended.2.2.1 fallbackFirm1 (by simp [getFallbackLawFirms])
